import Mathlib

/-!
Shallow embedding of the product CRUD server (`server.js` and the product
schema module) for verification of the claims of the specification.

JSON request bodies are modelled by `JVal` (string / number / boolean /
null), with `Option JVal` for a field that may be absent (`undefined` in
the source). Numbers are modelled by `Int`: the claims only exercise
integral prices and sign comparisons. The document store (MongoDB via
Mongoose) is an external collaborator of the program; its operations used
by the handlers (`find` with filter/sort/skip/limit, `countDocuments`,
`findOneAndUpdate` with a plain update document, i.e. a `$set` of the
provided fields, and case-insensitive regex matching for plain pattern
strings) are modelled over an explicit `List Product` store.
-/

namespace ProductApi

/-- A JSON value as it appears in a request body field. -/
inductive JVal where
  | str (s : String)
  | num (n : Int)
  | bool (b : Bool)
  | null
deriving DecidableEq

/-- JavaScript truthiness of a value: `""`, `0`, `false` and `null` are falsy. -/
def JVal.isFalsy : JVal → Bool
  | .str s => s == ""
  | .num n => n == 0
  | .bool b => !b
  | .null => true

/-- Truthiness of a possibly-absent value: `undefined` (absence) is falsy. -/
def jsFalsy : Option JVal → Bool
  | none => true
  | some v => v.isFalsy

/-- A request body for the product routes: every schema field may be absent.
`description` and `id` are never validated by the middleware but are part of
the body the update route forwards to the store. -/
structure Payload where
  id : Option JVal
  name : Option JVal
  description : Option JVal
  price : Option JVal
  category : Option JVal
  inStock : Option JVal
deriving DecidableEq

/-- The empty request body (every field absent). -/
def emptyPayload : Payload :=
  { id := none, name := none, description := none, price := none,
    category := none, inStock := none }

/-- Outcome of a middleware: pass control on, or answer with a status code,
message and (possibly empty) error list, as `authenticate`, `validateProduct`
and `validateProductUpdate` do in `server.js`. -/
inductive MidResult where
  | ok
  | err (statusCode : Nat) (message : String) (errors : List String)
deriving DecidableEq

/-- Truthiness of a possibly-absent string (the `api-key` header):
absence and the empty string are falsy. -/
def strFalsy : Option String → Bool
  | none => true
  | some s => s == ""

/-- The `authenticate` middleware (server.js lines 97-115): reads the
`api-key` header; a falsy header is answered 401 with the required-key
message; a header differing from both `process.env.API_KEY` and the
hard-coded string is answered 401 with the invalid-key message; otherwise
control passes. `envApiKey` is `process.env.API_KEY` (`none` when unset). -/
def authenticate (apiKey envApiKey : Option String) : MidResult :=
  if strFalsy apiKey then
    .err 401 "API key is required. Please provide api-key in headers." []
  else if apiKey != envApiKey && apiKey != some "your-secret-api-key" then
    .err 401 "Invalid API key" []
  else
    .ok

/-- The `name` check of `validateProduct` (server.js line 123): error when
the value is falsy, not a string, or trims to the empty string. -/
def nameCreateErrors (v : Option JVal) : List String :=
  if jsFalsy v then ["Name is required and must be a non-empty string"]
  else match v with
    | some (.str s) =>
      if s.trim.length == 0 then ["Name is required and must be a non-empty string"] else []
    | _ => ["Name is required and must be a non-empty string"]

/-- The `price` check of `validateProduct` (server.js lines 128-132):
`undefined` and `null` are "required" errors; any non-number or negative
number is a "non-negative" error. -/
def priceCreateErrors (v : Option JVal) : List String :=
  match v with
  | none => ["Price is required"]
  | some .null => ["Price is required"]
  | some (.num n) => if n < 0 then ["Price must be a non-negative number"] else []
  | some _ => ["Price must be a non-negative number"]

/-- The `category` check of `validateProduct` (server.js line 135), same
shape as the `name` check. -/
def categoryCreateErrors (v : Option JVal) : List String :=
  if jsFalsy v then ["Category is required and must be a non-empty string"]
  else match v with
    | some (.str s) =>
      if s.trim.length == 0 then ["Category is required and must be a non-empty string"] else []
    | _ => ["Category is required and must be a non-empty string"]

/-- The `inStock` check shared by both validators (server.js line 140): an
error only when the field is present and not a boolean. -/
def inStockErrors (v : Option JVal) : List String :=
  match v with
  | none => []
  | some (.bool _) => []
  | some _ => ["inStock must be a boolean value"]

/-- Accumulated error list of the `validateProduct` middleware, in source
order: name, price, category, inStock. -/
def validateProductErrors (p : Payload) : List String :=
  nameCreateErrors p.name ++ priceCreateErrors p.price ++
    categoryCreateErrors p.category ++ inStockErrors p.inStock

/-- The `validateProduct` middleware (server.js lines 118-153): answer 400
with the whole error list when any check failed, else pass control. -/
def validateProduct (p : Payload) : MidResult :=
  let errors := validateProductErrors p
  if errors.length > 0 then .err 400 "Validation failed" errors else .ok

/-- The `name` check of `validateProductUpdate` (server.js line 161): only a
present value is checked. -/
def nameUpdateErrors (v : Option JVal) : List String :=
  match v with
  | none => []
  | some (.str s) => if s.trim.length == 0 then ["Name must be a non-empty string"] else []
  | some _ => ["Name must be a non-empty string"]

/-- The `price` check of `validateProductUpdate` (server.js line 165). -/
def priceUpdateErrors (v : Option JVal) : List String :=
  match v with
  | none => []
  | some (.num n) => if n < 0 then ["Price must be a non-negative number"] else []
  | some _ => ["Price must be a non-negative number"]

/-- The `category` check of `validateProductUpdate` (server.js line 169). -/
def categoryUpdateErrors (v : Option JVal) : List String :=
  match v with
  | none => []
  | some (.str s) => if s.trim.length == 0 then ["Category must be a non-empty string"] else []
  | some _ => ["Category must be a non-empty string"]

/-- Accumulated error list of the `validateProductUpdate` middleware, in
source order. -/
def validateProductUpdateErrors (p : Payload) : List String :=
  nameUpdateErrors p.name ++ priceUpdateErrors p.price ++
    categoryUpdateErrors p.category ++ inStockErrors p.inStock

/-- The `validateProductUpdate` middleware (server.js lines 156-186). -/
def validateProductUpdate (p : Payload) : MidResult :=
  let errors := validateProductUpdateErrors p
  if errors.length > 0 then .err 400 "Validation failed" errors else .ok

/-- A stored product document, after the defaults of the schema have been
applied (`models/products.js`: `id`, `name`, `price`, `category` required,
`inStock` defaulting to true). Timestamps are managed by the store and not
consulted by any handler, so they are not modelled. -/
structure Product where
  id : String
  name : String
  description : String
  price : Int
  category : String
  inStock : Bool
deriving DecidableEq

/-- The store-level filter document built by the list handler. -/
structure Filter where
  category : Option String
  inStock : Option Bool
deriving DecidableEq

/-- Filter construction of the list handler (server.js lines 244-252): a
truthy `category` query value becomes an exact-match condition; a present
`inStock` query value becomes the condition `inStock == (value == "true")`. -/
def buildFilter (category inStockQ : Option String) : Filter :=
  { category := match category with
      | some c => if c == "" then none else some c
      | none => none,
    inStock := match inStockQ with
      | some s => some (s == "true")
      | none => none }

/-- Store-side evaluation of a filter document against one product. -/
def matchesFilter (f : Filter) (p : Product) : Bool :=
  (match f.category with
    | none => true
    | some c => p.category == c) &&
  (match f.inStock with
    | none => true
    | some b => p.inStock == b)

/-- Store-side count of the documents matching a filter
(`Product.countDocuments(filter)`). -/
def countDocuments (store : List Product) (f : Filter) : Nat :=
  (store.filter (matchesFilter f)).length

/-- Name order used by the store for `sort({name: 1})`. -/
def nameLe (a b : Product) : Prop := a.name ≤ b.name

instance : DecidableRel nameLe :=
  fun a b => inferInstanceAs (Decidable (a.name ≤ b.name))

instance : IsTotal Product nameLe := ⟨fun a b => le_total a.name b.name⟩

instance : IsTrans Product nameLe := ⟨fun _ _ _ hab hbc => le_trans hab hbc⟩

/-- Store-side `find(filter).sort({name: 1})`: the matching documents in
ascending name order (modelled by an insertion sort). -/
def findSortedByName (store : List Product) (f : Filter) : List Product :=
  List.insertionSort nameLe (store.filter (matchesFilter f))

/-- The successful response of the list handler. -/
structure ListResponse where
  results : Nat
  currentPage : Nat
  totalPages : Nat
  totalProducts : Nat
  limit : Nat
  products : List Product
deriving DecidableEq

/-- The `GET /api/products` handler (server.js lines 240-276): builds the
filter, computes `skip = (page-1)*limit`, counts the matching documents,
computes `totalPages = ceil(total/limit)` (in `Nat`, `(total+limit-1)/limit`
for a positive limit), and returns the sorted page. -/
def listProducts (store : List Product) (category inStockQ : Option String)
    (page limit : Nat) : ListResponse :=
  let f := buildFilter category inStockQ
  let skip := (page - 1) * limit
  let totalProducts := countDocuments store f
  let totalPages := (totalProducts + limit - 1) / limit
  let products := ((findSortedByName store f).drop skip).take limit
  { results := products.length, currentPage := page, totalPages := totalPages,
    totalProducts := totalProducts, limit := limit, products := products }

/-- Whether the first character list starts the second. -/
def startsWithChars : List Char → List Char → Bool
  | [], _ => true
  | _ :: _, [] => false
  | c :: cs, d :: ds => c == d && startsWithChars cs ds

/-- Whether the first character list occurs contiguously in the second. -/
def containsChars (pat : List Char) (l : List Char) : Bool :=
  match l with
  | [] => startsWithChars pat []
  | _ :: rest => startsWithChars pat l || containsChars pat rest

/-- Whether `pat` occurs as a substring of `s`. -/
def strContains (pat s : String) : Bool :=
  containsChars pat.toList s.toList

/-- Character-wise lowercasing of the characters of a string. -/
def lowerChars (l : List Char) : List Char := l.map Char.toLower

/-- Store-side case-insensitive regex match of a plain pattern string
against the name of a product (`name: {$regex: q, $options: "i"}` for a pattern
without regex metacharacters): the lowered pattern occurs as a substring of
the lowered name. -/
def nameMatches (q : String) (p : Product) : Bool :=
  containsChars (lowerChars q.toList) (lowerChars p.name.toList)

/-- Result of the search handler: success with count, echoed query and
matches, or the `ValidationError` it throws. -/
inductive SearchResult where
  | ok (results : Nat) (searchQuery : String) (products : List Product)
  | validationError (message : String)
deriving DecidableEq

/-- The `GET /api/products/search` handler (server.js lines 279-297): a
falsy `q` (absent or empty) raises `ValidationError`; otherwise all products
of the collection whose name matches case-insensitively are returned. -/
def searchProducts (store : List Product) (q : Option String) : SearchResult :=
  match q with
  | none => .validationError "Search query parameter \"q\" is required"
  | some s =>
    if s == "" then .validationError "Search query parameter \"q\" is required"
    else
      let found := store.filter (nameMatches s)
      .ok found.length s found

/-- The overall counters of the statistics handler. The price and
per-category aggregations of the same handler are separate store calls not
touched by any claim and are not modelled. -/
structure Statistics where
  totalProducts : Nat
  inStock : Nat
  outOfStock : Nat
deriving DecidableEq

/-- The counting part of the `GET /api/products/statistics` handler
(server.js lines 317-319): `countDocuments()`, `countDocuments({inStock:
true})` and `countDocuments({inStock: false})`. -/
def getStatistics (store : List Product) : Statistics :=
  { totalProducts := store.length,
    inStock := countDocuments store { category := none, inStock := some true },
    outOfStock := countDocuments store { category := none, inStock := some false } }

/-- The update document the store derives from a request body that reached
the update handler: each schema field present in the body is to be `$set`.
The type-correct extraction is faithful for every body the route actually
forwards: `name`, `price`, `category`, `inStock` have passed
`validateProductUpdate`, and the claims exercise `id` only with string
values (other `id` values would be cast by the store, which changes nothing
about which fields are written). -/
structure UpdateDoc where
  id : Option String
  name : Option String
  description : Option String
  price : Option Int
  category : Option String
  inStock : Option Bool
deriving DecidableEq

/-- Extraction of the update document from a request body. -/
def toUpdateDoc (p : Payload) : UpdateDoc :=
  { id := match p.id with | some (.str s) => some s | _ => none,
    name := match p.name with | some (.str s) => some s | _ => none,
    description := match p.description with | some (.str s) => some s | _ => none,
    price := match p.price with | some (.num n) => some n | _ => none,
    category := match p.category with | some (.str s) => some s | _ => none,
    inStock := match p.inStock with | some (.bool b) => some b | _ => none }

/-- Store-side application of a plain update document to one document
(Mongoose converts it to a `$set` of the provided fields): present fields
are overwritten, absent fields keep their value. -/
def applyUpdate (p : Product) (u : UpdateDoc) : Product :=
  { id := u.id.getD p.id,
    name := u.name.getD p.name,
    description := u.description.getD p.description,
    price := u.price.getD p.price,
    category := u.category.getD p.category,
    inStock := u.inStock.getD p.inStock }

/-- Store-side `findOne({id})`. -/
def findOneById (store : List Product) (pid : String) : Option Product :=
  store.find? (fun p => p.id == pid)

/-- Outcome of the `PUT /api/products/:id` route. -/
inductive UpdateOutcome where
  | ok (product : Product)
  | notFound (message : String)
  | validationFailed (errors : List String)
deriving DecidableEq

/-- The `PUT /api/products/:id` route (server.js lines 377-393) behind
`validateProductUpdate` (the `authenticate` stage is orthogonal and modelled
separately): a failing validation answers 400 with the error list; otherwise
`findOneAndUpdate({id}, body)` updates the matching document in place, and a
missing id raises `NotFoundError`. Returns the outcome and the new store. -/
def putProduct (store : List Product) (pid : String) (body : Payload) :
    UpdateOutcome × List Product :=
  match validateProductUpdate body with
  | .err _ _ errors => (.validationFailed errors, store)
  | .ok =>
    match findOneById store pid with
    | none => (.notFound ("Product with id " ++ pid ++ " not found"), store)
    | some p =>
      let updated := applyUpdate p (toUpdateDoc body)
      (.ok updated, store.map (fun q => if q.id == p.id then applyUpdate q (toUpdateDoc body) else q))

/-- A JavaScript error object as the global error middleware sees it:
`name`, `message` and `stack` are present on every `Error`; `statusCode`
and `status` are extra properties some errors carry (`none` = absent);
`fieldErrors` is the `errors` property of a Mongoose validation error, as
the list of messages of its values (`none` = property absent); `path` and
`value` are the extra properties of a Mongoose cast error. -/
structure JsError where
  name : String
  message : String
  stack : String
  statusCode : Option Nat
  status : Option String
  fieldErrors : Option (List String)
  path : Option String
  value : Option String
deriving DecidableEq

/-- An instance of the `NotFoundError` class (server.js lines 193-200). -/
def notFoundError (msg stack : String) : JsError :=
  { name := "NotFoundError", message := msg, stack := stack,
    statusCode := some 404, status := none, fieldErrors := none,
    path := none, value := none }

/-- An instance of the `ValidationError` class (server.js lines 202-209).
Note that it carries no `errors` property. -/
def validationErrorObj (msg stack : String) : JsError :=
  { name := "ValidationError", message := msg, stack := stack,
    statusCode := some 400, status := none, fieldErrors := none,
    path := none, value := none }

/-- An instance of the `AuthenticationError` class (server.js lines 211-218). -/
def authenticationError (msg stack : String) : JsError :=
  { name := "AuthenticationError", message := msg, stack := stack,
    statusCode := some 401, status := none, fieldErrors := none,
    path := none, value := none }

/-- The response the global error middleware sends: status code, `status`
and `message` fields, and the `stack` field when present. -/
structure ErrorResponse where
  statusCode : Nat
  status : String
  message : String
  stack : Option String
deriving DecidableEq

/-- Coercion JavaScript applies when interpolating a possibly-absent string. -/
def jsShow (v : Option String) : String := v.getD "undefined"

/-- The global error middleware (server.js lines 419-444). `nodeEnv` is
`process.env.NODE_ENV`. The middleware defaults `statusCode` to 500 and
`status` to "error", rewrites Mongoose validation errors (by `name`) to 400
with the joined field messages, rewrites cast errors to 400, and attaches
the stack exactly when `NODE_ENV === "development"`. When `err.name` is
"ValidationError" but the `errors` property is absent — the case of the
own `ValidationError` class of the app — `Object.values(err.errors)` throws a
`TypeError`, so the middleware itself fails and the error escapes to the
default handler of the framework; this is modelled by the `Except.error` case. -/
def formatError (nodeEnv : Option String) (e : JsError) : Except String ErrorResponse :=
  let statusCode := e.statusCode.getD 500
  let status := e.status.getD "error"
  let stack := if nodeEnv == some "development" then some e.stack else none
  if e.name == "ValidationError" then
    match e.fieldErrors with
    | none => .error "TypeError: Cannot convert undefined or null to object"
    | some msgs =>
      .ok { statusCode := 400, status := status,
            message := String.intercalate ", " msgs, stack := stack }
  else if e.name == "CastError" then
    .ok { statusCode := 400, status := status,
          message := "Invalid " ++ jsShow e.path ++ ": " ++ jsShow e.value,
          stack := stack }
  else
    .ok { statusCode := statusCode, status := status, message := e.message,
          stack := stack }

/-- One segment of an Express route pattern: a literal or a `:name`
parameter. -/
inductive Seg where
  | lit (s : String)
  | param (s : String)
deriving DecidableEq

/-- The GET handlers of server.js, as registered. -/
inductive RouteId where
  | root
  | listRoute
  | searchRoute
  | statisticsRoute
  | fetchOne
deriving DecidableEq

/-- The GET routes in registration order (server.js lines 228, 240, 279,
300, 346): `/`, `/api/products`, `/api/products/search`,
`/api/products/statistics`, `/api/products/:id`. -/
def getRoutes : List (List Seg × RouteId) :=
  [([], .root),
   ([.lit "api", .lit "products"], .listRoute),
   ([.lit "api", .lit "products", .lit "search"], .searchRoute),
   ([.lit "api", .lit "products", .lit "statistics"], .statisticsRoute),
   ([.lit "api", .lit "products", .param "id"], .fetchOne)]

/-- Whether one pattern segment accepts one path segment. -/
def segMatches : Seg → String → Bool
  | .lit s, t => s == t
  | .param _, _ => true

/-- Whether a whole pattern accepts a whole path (split into segments). -/
def pathMatches : List Seg → List String → Bool
  | [], [] => true
  | s :: ss, t :: ts => segMatches s t && pathMatches ss ts
  | _, _ => false

/-- Express dispatch for a GET request: the first registered route whose
pattern accepts the path handles it. -/
def matchGet (path : List String) : Option RouteId :=
  (getRoutes.find? (fun r => pathMatches r.fst path)).map (fun r => r.snd)

/-- The fixture data the seeding routine inserts into an empty store
(server.js lines 31-72). -/
def initialProducts : List Product :=
  [{ id := "1", name := "Laptop",
     description := "High-performance laptop with 16GB RAM",
     price := 1200, category := "electronics", inStock := true },
   { id := "2", name := "Smartphone",
     description := "Latest model with 128GB storage",
     price := 800, category := "electronics", inStock := true },
   { id := "3", name := "Coffee Maker",
     description := "Programmable coffee maker with timer",
     price := 50, category := "kitchen", inStock := false },
   { id := "4", name := "Wireless Mouse",
     description := "Ergonomic wireless mouse",
     price := 25, category := "electronics", inStock := true },
   { id := "5", name := "Blender",
     description := "High-speed blender for smoothies",
     price := 80, category := "kitchen", inStock := true }]

/-- The first fixture product with a given price, used as a concrete
document in witnesses. -/
def seedProduct1 (price : Int) : Product :=
  { id := "1", name := "Laptop",
    description := "High-performance laptop with 16GB RAM",
    price := price, category := "electronics", inStock := true }

end ProductApi

namespace ProductApi

/-- On a successful update route call, the returned product is the found
document with the update document applied. -/
theorem putProduct_ok_eq (store : List Product) (pid : String) (body : Payload)
    (p q : Product) (hfind : findOneById store pid = some p)
    (hok : (putProduct store pid body).fst = .ok q) :
    q = applyUpdate p (toUpdateDoc body) := by
  unfold putProduct at hok
  cases hval : validateProductUpdate body with
  | err c m errs => rw [hval] at hok; simp at hok
  | ok =>
    rw [hval, hfind] at hok
    simp only [UpdateOutcome.ok.injEq] at hok
    exact hok.symm

end ProductApi

namespace ProductApi

/-- C1, counterexample: with a configured secret different from the
hard-coded fallback, a request presenting the fallback value
"your-secret-api-key" is accepted by `authenticate`, although its
credential differs from the configured secret — contradicting "succeeds
silently if and only if the credential header value of the request equals the
configured secret". -/
theorem c1_counterexample :
    authenticate (some "your-secret-api-key") (some "sk-configured-secret") = .ok ∧
    ("your-secret-api-key" : String) ≠ "sk-configured-secret" := by
  exact ⟨rfl, by decide⟩

/-- C1, amended: for every create/update/delete request, `authenticate`
succeeds silently if and only if the credential header is present,
non-empty, and equal to the configured secret or to the hard-coded fallback
"your-secret-api-key"; an absent or empty credential header fails 401 with
the credential-required message, and any other credential value fails 401
with the invalid-credential message. -/
theorem c1_auth_amended (apiKey envApiKey : Option String) :
    (authenticate apiKey envApiKey = .ok ↔
      apiKey ≠ none ∧ apiKey ≠ some "" ∧
        (apiKey = envApiKey ∨ apiKey = some "your-secret-api-key")) ∧
    (strFalsy apiKey = true →
      authenticate apiKey envApiKey =
        .err 401 "API key is required. Please provide api-key in headers." []) ∧
    (strFalsy apiKey = false → apiKey ≠ envApiKey →
      apiKey ≠ some "your-secret-api-key" →
      authenticate apiKey envApiKey = .err 401 "Invalid API key" []) := by
  obtain _ | k := apiKey
  · refine ⟨by simp [authenticate, strFalsy], fun _ => rfl, fun h => by simp [strFalsy] at h⟩
  · by_cases hk : k = ""
    · subst hk
      refine ⟨by simp [authenticate, strFalsy], fun _ => rfl, fun h => by simp [strFalsy] at h⟩
    · have hfal : strFalsy (some k) = false := by simp [strFalsy, hk]
      refine ⟨⟨?_, ?_⟩, ?_, ?_⟩
      · intro h
        refine ⟨by simp, by simp [hk], ?_⟩
        by_contra hcon
        push_neg at hcon
        obtain ⟨h1, h2⟩ := hcon
        have hb : (some k != envApiKey && some k != some "your-secret-api-key") = true := by
          simp only [Bool.and_eq_true, bne_iff_ne, ne_eq]
          exact ⟨h1, fun he => h2 he⟩
        simp [authenticate, strFalsy, hk, hb] at h
      · rintro ⟨-, -, hor⟩
        have hb : (some k != envApiKey && some k != some "your-secret-api-key") = false := by
          rcases hor with h | h
          · rw [← h]; simp
          · rw [h]; simp
        simp [authenticate, strFalsy, hk, hb]
      · intro h; rw [hfal] at h; cases h
      · intro _ h1 h2
        have hb : (some k != envApiKey && some k != some "your-secret-api-key") = true := by
          simp only [Bool.and_eq_true, bne_iff_ne, ne_eq]
          exact ⟨h1, h2⟩
        simp [authenticate, strFalsy, hk, hb]

/-- C1, witness: the amended theorem applied at concrete inputs — a correct
configured key is accepted, a missing header is answered with the
credential-required message, a wrong key with the invalid-key message. -/
theorem c1_witness :
    authenticate (some "sk-configured-secret") (some "sk-configured-secret") = .ok ∧
    authenticate none (some "sk-configured-secret") =
      .err 401 "API key is required. Please provide api-key in headers." [] ∧
    authenticate (some "wrong") (some "sk-configured-secret") =
      .err 401 "Invalid API key" [] := by
  refine ⟨?_, ?_, ?_⟩
  · exact (c1_auth_amended (some "sk-configured-secret") (some "sk-configured-secret")).1.mpr
      ⟨by decide, by decide, Or.inl rfl⟩
  · exact (c1_auth_amended none (some "sk-configured-secret")).2.1 rfl
  · exact (c1_auth_amended (some "wrong") (some "sk-configured-secret")).2.2 (by decide)
      (by decide) (by decide)

/-- C3, counterexample: the query parameter `q` present but equal to the
empty string is a concrete input where the claim fails: every product name
contains the empty string case-insensitively, so the claim requires the
search to return the whole collection, but the falsiness test of the handler
`!q` rejects the request with the `ValidationError` instead. -/
theorem c3_counterexample :
    (some "" : Option String) ≠ none ∧
    nameMatches "" (initialProducts.get ⟨0, by decide⟩) = true ∧
    initialProducts.filter (nameMatches "") = initialProducts ∧
    searchProducts initialProducts (some "") =
      .validationError "Search query parameter \"q\" is required" := by
  refine ⟨by decide, by decide, by decide, rfl⟩

/-- C3, amended: a search request whose query parameter `q` is absent or
empty fails with `Validation`; for every non-empty `q` it returns exactly
those products in the entire collection whose name contains `q`
case-insensitively (no pagination), together with the echoed query and the
match count, and a query matching no product name returns zero results. -/
theorem c3_search_amended (store : List Product) (q : Option String) :
    (strFalsy q = true →
      searchProducts store q =
        .validationError "Search query parameter \"q\" is required") ∧
    (∀ s, q = some s → s ≠ "" →
      ∃ found, searchProducts store q = .ok found.length s found ∧
        (∀ p, p ∈ found ↔ p ∈ store ∧ nameMatches s p = true) ∧
        ((∀ p ∈ store, nameMatches s p = false) → found = [])) := by
  constructor
  · intro hq
    obtain _ | s := q
    · rfl
    · have hs : s = "" := by simpa [strFalsy] using hq
      subst hs
      rfl
  · rintro s rfl hs
    refine ⟨store.filter (nameMatches s), ?_, ?_, ?_⟩
    · simp [searchProducts, hs]
    · intro p
      simp [List.mem_filter]
    · intro hall
      simp only [List.filter_eq_nil_iff]
      intro p hp
      simp [hall p hp]

/-- C3, witness: the amended theorem applied to the fixture data — an
absent query fails with `Validation`, and the query "laptop" returns
exactly the case-insensitive matches. -/
theorem c3_witness :
    searchProducts initialProducts none =
      .validationError "Search query parameter \"q\" is required" ∧
    ∃ found, searchProducts initialProducts (some "laptop") =
      .ok found.length "laptop" found ∧
      (∀ p, p ∈ found ↔ p ∈ initialProducts ∧ nameMatches "laptop" p = true) ∧
      ((∀ p ∈ initialProducts, nameMatches "laptop" p = false) → found = []) := by
  constructor
  · exact (c3_search_amended initialProducts none).1 rfl
  · exact (c3_search_amended initialProducts (some "laptop")).2 "laptop" rfl (by decide)

/-- C4: strict create validation checks all four fields without
short-circuiting — every violation any single field produces is in the
final list, which is the in-order concatenation of the per-field checks —
and a nonempty violation list is answered 400 with the whole ordered list;
in particular the payload `{name: "", price: -50}` with `category` omitted
is answered 400 with exactly the three messages for name, price and
category, in that order. -/
theorem c4_strict_validation (p : Payload) :
    (∀ msg, msg ∈ nameCreateErrors p.name → msg ∈ validateProductErrors p) ∧
    (∀ msg, msg ∈ priceCreateErrors p.price → msg ∈ validateProductErrors p) ∧
    (∀ msg, msg ∈ categoryCreateErrors p.category → msg ∈ validateProductErrors p) ∧
    (∀ msg, msg ∈ inStockErrors p.inStock → msg ∈ validateProductErrors p) ∧
    validateProductErrors p =
      nameCreateErrors p.name ++ priceCreateErrors p.price ++
        categoryCreateErrors p.category ++ inStockErrors p.inStock ∧
    (validateProductErrors p ≠ [] →
      validateProduct p = .err 400 "Validation failed" (validateProductErrors p)) ∧
    (validateProductErrors p = [] → validateProduct p = .ok) ∧
    validateProduct
      { emptyPayload with name := some (.str ""), price := some (.num (-50)) } =
      .err 400 "Validation failed"
        ["Name is required and must be a non-empty string",
         "Price must be a non-negative number",
         "Category is required and must be a non-empty string"] := by
  refine ⟨?_, ?_, ?_, ?_, rfl, ?_, ?_, by decide⟩
  · intro msg h; simp [validateProductErrors, h]
  · intro msg h; simp [validateProductErrors, h]
  · intro msg h; simp [validateProductErrors, h]
  · intro msg h; simp [validateProductErrors, h]
  · intro h
    have hl : 0 < (validateProductErrors p).length := List.length_pos.mpr h
    simp only [validateProduct]
    rw [if_pos (by simpa using hl)]
  · intro h
    simp [validateProduct, h]

/-- C4, witness: the theorem applied at the concrete payload of the claim,
discharging the nonempty-error-list hypothesis there. -/
theorem c4_witness :
    validateProduct
      { emptyPayload with name := some (.str ""), price := some (.num (-50)) } =
      .err 400 "Validation failed"
        (validateProductErrors
          { emptyPayload with name := some (.str ""), price := some (.num (-50)) }) :=
  (c4_strict_validation
    { emptyPayload with name := some (.str ""), price := some (.num (-50)) }).2.2.2.2.2.1
    (by decide)

/-- C5: a payload whose price field is a number below zero fails both the
strict and the partial validator with a 400 `Validation` answer whose error
list contains a message mentioning "non-negative". -/
theorem c5_negative_price (p : Payload) (n : Int)
    (hp : p.price = some (.num n)) (hn : n < 0) :
    "Price must be a non-negative number" ∈ validateProductErrors p ∧
    "Price must be a non-negative number" ∈ validateProductUpdateErrors p ∧
    strContains "non-negative" "Price must be a non-negative number" = true ∧
    validateProduct p = .err 400 "Validation failed" (validateProductErrors p) ∧
    validateProductUpdate p = .err 400 "Validation failed" (validateProductUpdateErrors p) := by
  have hpc : priceCreateErrors p.price = ["Price must be a non-negative number"] := by
    rw [hp]; simp [priceCreateErrors, hn]
  have hpu : priceUpdateErrors p.price = ["Price must be a non-negative number"] := by
    rw [hp]; simp [priceUpdateErrors, hn]
  have hmc : "Price must be a non-negative number" ∈ validateProductErrors p := by
    simp [validateProductErrors, hpc]
  have hmu : "Price must be a non-negative number" ∈ validateProductUpdateErrors p := by
    simp [validateProductUpdateErrors, hpu]
  refine ⟨hmc, hmu, by decide, ?_, ?_⟩
  · have hl : 0 < (validateProductErrors p).length :=
      List.length_pos.mpr (List.ne_nil_of_mem hmc)
    simp only [validateProduct]
    rw [if_pos (by simpa using hl)]
  · have hl : 0 < (validateProductUpdateErrors p).length :=
      List.length_pos.mpr (List.ne_nil_of_mem hmu)
    simp only [validateProductUpdate]
    rw [if_pos (by simpa using hl)]

/-- C5, witness: the theorem applied to the payload `{price: -50}`. -/
theorem c5_witness :
    "Price must be a non-negative number" ∈
      validateProductErrors { emptyPayload with price := some (.num (-50)) } ∧
    "Price must be a non-negative number" ∈
      validateProductUpdateErrors { emptyPayload with price := some (.num (-50)) } ∧
    strContains "non-negative" "Price must be a non-negative number" = true ∧
    validateProduct { emptyPayload with price := some (.num (-50)) } =
      .err 400 "Validation failed"
        (validateProductErrors { emptyPayload with price := some (.num (-50)) }) ∧
    validateProductUpdate { emptyPayload with price := some (.num (-50)) } =
      .err 400 "Validation failed"
        (validateProductUpdateErrors { emptyPayload with price := some (.num (-50)) }) :=
  c5_negative_price { emptyPayload with price := some (.num (-50)) } (-50) rfl (by decide)

/-- C6: on a successful partial update of an existing product, every schema
field absent from the update payload keeps its previous value on the
returned product, and the updated product replaces the old one in the
store. -/
theorem c6_partial_update_frame (store : List Product) (pid : String)
    (body : Payload) (p q : Product)
    (hfind : findOneById store pid = some p)
    (hok : (putProduct store pid body).fst = .ok q) :
    (body.id = none → q.id = p.id) ∧
    (body.name = none → q.name = p.name) ∧
    (body.description = none → q.description = p.description) ∧
    (body.price = none → q.price = p.price) ∧
    (body.category = none → q.category = p.category) ∧
    (body.inStock = none → q.inStock = p.inStock) ∧
    (p ∈ store → q ∈ (putProduct store pid body).snd) := by
  have hq : q = applyUpdate p (toUpdateDoc body) :=
    putProduct_ok_eq store pid body p q hfind hok
  refine ⟨?_, ?_, ?_, ?_, ?_, ?_, ?_⟩
  · intro h; rw [hq]; simp [applyUpdate, toUpdateDoc, h]
  · intro h; rw [hq]; simp [applyUpdate, toUpdateDoc, h]
  · intro h; rw [hq]; simp [applyUpdate, toUpdateDoc, h]
  · intro h; rw [hq]; simp [applyUpdate, toUpdateDoc, h]
  · intro h; rw [hq]; simp [applyUpdate, toUpdateDoc, h]
  · intro h; rw [hq]; simp [applyUpdate, toUpdateDoc, h]
  · intro hmem
    cases hval : validateProductUpdate body with
    | err c m errs =>
      exfalso
      unfold putProduct at hok
      rw [hval] at hok
      simp at hok
    | ok =>
      have hsnd : (putProduct store pid body).snd =
          store.map (fun r => if r.id == p.id then applyUpdate r (toUpdateDoc body) else r) := by
        simp [putProduct, hval, hfind]
      rw [hsnd, hq]
      exact List.mem_map.mpr ⟨p, hmem, by simp⟩

/-- C6, witness: updating only the price of the seeded laptop leaves the
other stored fields unchanged and stores the result. -/
theorem c6_witness :
    (({ emptyPayload with price := some (.num 999) } : Payload).name = none →
      (seedProduct1 999).name = (seedProduct1 1200).name) ∧
    (seedProduct1 1200 ∈ [seedProduct1 1200] →
      seedProduct1 999 ∈
        (putProduct [seedProduct1 1200] "1"
          { emptyPayload with price := some (.num 999) }).snd) := by
  have h := c6_partial_update_frame [seedProduct1 1200] "1"
    { emptyPayload with price := some (.num 999) }
    (seedProduct1 1200) (seedProduct1 999) (by decide) (by decide)
  exact ⟨h.2.1, h.2.2.2.2.2.2⟩

/-- C7, counterexample: the update payload `{id: "999"}` is accepted by the
update validator (which never inspects `id`), and a successful update of
the seeded product "1" with it returns — and stores — a product whose id is
"999": the id is not immutable under validated partial updates. -/
theorem c7_counterexample :
    validateProductUpdate { emptyPayload with id := some (.str "999") } = .ok ∧
    (putProduct initialProducts "1"
        { emptyPayload with id := some (.str "999") }).fst =
      .ok { id := "999", name := "Laptop",
            description := "High-performance laptop with 16GB RAM",
            price := 1200, category := "electronics", inStock := true } ∧
    ("999" : String) ≠ "1" ∧
    findOneById initialProducts "1" =
      some { id := "1", name := "Laptop",
             description := "High-performance laptop with 16GB RAM",
             price := 1200, category := "electronics", inStock := true } := by
  refine ⟨rfl, by decide, by decide, by decide⟩

/-- C7, amended: the id of a product is unchanged by every successful
partial update whose payload does not carry an `id` field; a validated
payload carrying an `id` field overwrites the stored id. -/
theorem c7_id_amended (store : List Product) (pid : String) (body : Payload)
    (p q : Product) (hfind : findOneById store pid = some p)
    (hok : (putProduct store pid body).fst = .ok q)
    (hid : body.id = none) : q.id = p.id := by
  have hq : q = applyUpdate p (toUpdateDoc body) :=
    putProduct_ok_eq store pid body p q hfind hok
  rw [hq]; simp [applyUpdate, toUpdateDoc, hid]

/-- C7, witness: the amended theorem applied to an id-free price update of
the seeded laptop. -/
theorem c7_witness :
    ({ id := "1", name := "Laptop",
       description := "High-performance laptop with 16GB RAM",
       price := 999, category := "electronics", inStock := true } : Product).id =
    ({ id := "1", name := "Laptop",
       description := "High-performance laptop with 16GB RAM",
       price := 1200, category := "electronics", inStock := true } : Product).id :=
  c7_id_amended
    [{ id := "1", name := "Laptop",
       description := "High-performance laptop with 16GB RAM",
       price := 1200, category := "electronics", inStock := true }]
    "1" { emptyPayload with price := some (.num 999) } _ _
    (by decide) (by decide) rfl

/-- The pure in-stock filter equals the evaluation of the statistics
filter document of the statistics handler. -/
theorem matchesFilter_inStock (b : Bool) :
    matchesFilter { category := none, inStock := some b } =
      fun p => p.inStock == b := by
  funext p
  simp [matchesFilter]

/-- Every list of products splits into those in stock and those not. -/
theorem count_inStock_split (store : List Product) :
    (store.filter (fun p => p.inStock == true)).length +
      (store.filter (fun p => p.inStock == false)).length = store.length := by
  induction store with
  | nil => rfl
  | cons p rest ih =>
    by_cases h : p.inStock
    · simp only [List.filter_cons, h, beq_self_eq_true, if_true]
      simp only [Bool.true_eq_false, beq_iff_eq, h, if_false, List.length_cons]
      omega
    · have hb : p.inStock = false := by simpa using h
      simp only [List.filter_cons, hb, Bool.false_eq_true, beq_iff_eq, if_false,
        beq_self_eq_true, if_true, List.length_cons]
      omega

/-- C8: for every store contents, the in-stock count of the statistics handler
plus its out-of-stock count equals its total product count. -/
theorem c8_statistics_partition (store : List Product) :
    (getStatistics store).inStock + (getStatistics store).outOfStock =
      (getStatistics store).totalProducts := by
  simp only [getStatistics, countDocuments, matchesFilter_inStock]
  exact count_inStock_split store

/-- C10: a GET request for /api/products/search or /api/products/statistics
is dispatched to the search and statistics handlers respectively, although
the later-registered :id route pattern would also accept both paths — the
registration order shadows the fetch-one route, which therefore never sees
"search" or "statistics" as an id. -/
theorem c10_route_shadowing :
    matchGet ["api", "products", "search"] = some .searchRoute ∧
    matchGet ["api", "products", "statistics"] = some .statisticsRoute ∧
    pathMatches [.lit "api", .lit "products", .param "id"]
      ["api", "products", "search"] = true ∧
    pathMatches [.lit "api", .lit "products", .param "id"]
      ["api", "products", "statistics"] = true ∧
    RouteId.searchRoute ≠ RouteId.fetchOne ∧
    RouteId.statisticsRoute ≠ RouteId.fetchOne := by
  decide

/-- C9, counterexample: two concrete inputs refute the claim. First, an
instance of the own `ValidationError` class (as the search handler
throws) makes the central formatter itself throw — `Object.values` is
applied to the absent `errors` property — so this error is not rendered by
the formatter at all. Second, with `NODE_ENV = "test"` (a non-production
mode) the diagnostic trace is not included for an internal error. -/
theorem c9_counterexample :
    formatError (some "test")
      (validationErrorObj "Search query parameter \"q\" is required" "trace") =
      Except.error "TypeError: Cannot convert undefined or null to object" ∧
    formatError (some "test")
      { name := "Error", message := "boom", stack := "trace",
        statusCode := none, status := none, fieldErrors := none,
        path := none, value := none } =
      Except.ok { statusCode := 500, status := "error", message := "boom",
                  stack := none } ∧
    (some "test" : Option String) ≠ some "production" := by
  refine ⟨rfl, rfl, by decide⟩

/-- C9, amended: every error not named "ValidationError", and every
"ValidationError" carrying a field-errors collection, is rendered by the
single central formatter as a `status: "error"` envelope (when the error
object carries no own `status` value); an error with none of the three
operational status codes — no `statusCode` property and not remapped by the
"ValidationError"/"CastError" name checks — is rendered 500; the diagnostic
trace is included exactly when the process runs in "development" mode. An
error named "ValidationError" without a field-errors collection (the
own `ValidationError` class of the app) makes the formatter itself throw, so it
escapes to the default handler of the framework instead. -/
theorem c9_error_rendering (nodeEnv : Option String) (e : JsError)
    (hs : e.status = none) :
    (e.name ≠ "ValidationError" →
      ∃ r, formatError nodeEnv e = Except.ok r ∧ r.status = "error" ∧
        (e.statusCode = none → e.name ≠ "CastError" → r.statusCode = 500) ∧
        ((r.stack ≠ none) ↔ nodeEnv = some "development") ∧
        (nodeEnv = some "development" → r.stack = some e.stack)) ∧
    (e.name = "ValidationError" → e.fieldErrors = none →
      formatError nodeEnv e =
        Except.error "TypeError: Cannot convert undefined or null to object") ∧
    (∀ msgs, e.name = "ValidationError" → e.fieldErrors = some msgs →
      ∃ r, formatError nodeEnv e = Except.ok r ∧ r.statusCode = 400 ∧
        r.status = "error" ∧ r.message = String.intercalate ", " msgs ∧
        ((r.stack ≠ none) ↔ nodeEnv = some "development")) := by
  have hstack : ∀ s : String,
      (((if nodeEnv == some "development" then some s else none) ≠ none) ↔
        nodeEnv = some "development") := by
    intro s
    by_cases h : nodeEnv = some "development"
    · simp [h]
    · have hb : (nodeEnv == some "development") = false := by
        simpa using h
      simp [hb, h]
  refine ⟨?_, ?_, ?_⟩
  · intro hname
    have hb : (e.name == "ValidationError") = false := by simpa using hname
    by_cases hcast : e.name = "CastError"
    · have hbc : (e.name == "CastError") = true := by simpa using hcast
      refine ⟨{ statusCode := 400, status := "error",
                message := "Invalid " ++ jsShow e.path ++ ": " ++ jsShow e.value,
                stack := if nodeEnv == some "development" then some e.stack
                         else none }, ?_, rfl, ?_, ?_, ?_⟩
      · simp [formatError, hb, hbc, hs]
      · intro _ habs; exact absurd hcast habs
      · exact hstack e.stack
      · intro h; simp [h]
    · have hbc : (e.name == "CastError") = false := by simpa using hcast
      refine ⟨{ statusCode := e.statusCode.getD 500, status := "error",
                message := e.message,
                stack := if nodeEnv == some "development" then some e.stack
                         else none }, ?_, rfl, ?_, ?_, ?_⟩
      · simp [formatError, hb, hbc, hs]
      · intro h _; simp [h]
      · exact hstack e.stack
      · intro h; simp [h]
  · intro hname hfe
    have hbv : (e.name == "ValidationError") = true := by simpa using hname
    simp [formatError, hbv, hfe]
  · intro msgs hname hfe
    have hbv : (e.name == "ValidationError") = true := by simpa using hname
    refine ⟨{ statusCode := 400, status := "error",
              message := String.intercalate ", " msgs,
              stack := if nodeEnv == some "development" then some e.stack
                       else none }, ?_, rfl, rfl, rfl, ?_⟩
    · simp [formatError, hbv, hfe, hs]
    · exact hstack e.stack

/-- C9, witness: the amended theorem applied to a concrete `NotFoundError`
outside development mode, to the own `ValidationError`, and to a
Mongoose-style validation error carrying field errors. -/
theorem c9_witness :
    (∃ r, formatError (some "production") (notFoundError "missing" "trace") =
      Except.ok r ∧ r.status = "error" ∧
      (((notFoundError "missing" "trace").statusCode = none →
        (notFoundError "missing" "trace").name ≠ "CastError" → r.statusCode = 500)) ∧
      ((r.stack ≠ none) ↔ (some "production" : Option String) = some "development") ∧
      ((some "production" : Option String) = some "development" →
        r.stack = some "trace")) ∧
    formatError (some "production") (validationErrorObj "bad" "trace") =
      Except.error "TypeError: Cannot convert undefined or null to object" := by
  constructor
  · exact (c9_error_rendering (some "production")
      (notFoundError "missing" "trace") rfl).1 (by decide)
  · exact (c9_error_rendering (some "production")
      (validationErrorObj "bad" "trace") rfl).2.1 rfl rfl

/-- Ceiling division over the naturals, as the list handler computes it,
agrees with the rational ceiling for a positive divisor. -/
theorem natCeilDiv_eq (m L : Nat) (hL : 1 ≤ L) :
    (m + L - 1) / L = ⌈(m : ℚ) / (L : ℚ)⌉₊ := by
  have hL0 : 0 < L := hL
  have hLQ : (0 : ℚ) < (L : ℚ) := by exact_mod_cast hL0
  apply le_antisymm
  · rw [Nat.div_le_iff_le_mul_add_pred hL0]
    have h1 : (m : ℚ) ≤ (⌈(m : ℚ) / (L : ℚ)⌉₊ : ℚ) * (L : ℚ) := by
      have hc := Nat.le_ceil ((m : ℚ) / (L : ℚ))
      have h2 := mul_le_mul_of_nonneg_right hc (le_of_lt hLQ)
      rwa [div_mul_cancel₀ _ (ne_of_gt hLQ)] at h2
    have h2 : m ≤ ⌈(m : ℚ) / (L : ℚ)⌉₊ * L := by exact_mod_cast h1
    rw [mul_comm L]
    generalize hX : (⌈(m : ℚ) / (L : ℚ)⌉₊ : ℕ) * L = X at h2 ⊢
    omega
  · rw [Nat.ceil_le, div_le_iff₀ hLQ]
    have h3 : m ≤ (m + L - 1) / L * L := by
      have hd := Nat.div_add_mod (m + L - 1) L
      have hm := Nat.mod_lt (m + L - 1) hL0
      rw [mul_comm]
      generalize hX : L * ((m + L - 1) / L) = X at hd ⊢
      generalize hr : (m + L - 1) % L = r at hd hm
      omega
    exact_mod_cast h3

/-- C2: for every list request with pagination parameters `page ≥ 1` and
`limit ≥ 1`, the handler returns the slice obtained by skipping
`(page-1)*limit` items of the name-sorted matching products; at most
`limit` items are returned and they are sorted by name ascending; the
sorted sequence is a permutation of the products matching the filter;
`totalProducts` is the count of all matching items, independent of `page`
and `limit`; and `totalPages` equals `ceil(totalProducts / limit)`. -/
theorem c2_list_pagination (store : List Product) (category inStockQ : Option String)
    (page limit : Nat) (hp : 1 ≤ page) (hl : 1 ≤ limit) :
    (listProducts store category inStockQ page limit).products.length ≤ limit ∧
    List.Sorted nameLe (listProducts store category inStockQ page limit).products ∧
    (listProducts store category inStockQ page limit).products =
      ((findSortedByName store (buildFilter category inStockQ)).drop
        ((page - 1) * limit)).take limit ∧
    List.Perm (findSortedByName store (buildFilter category inStockQ))
      (store.filter (matchesFilter (buildFilter category inStockQ))) ∧
    (listProducts store category inStockQ page limit).totalProducts =
      (store.filter (matchesFilter (buildFilter category inStockQ))).length ∧
    (listProducts store category inStockQ page limit).totalPages =
      ⌈(((listProducts store category inStockQ page limit).totalProducts : ℚ) /
        (limit : ℚ))⌉₊ ∧
    (∀ page2 limit2,
      (listProducts store category inStockQ page2 limit2).totalProducts =
        (listProducts store category inStockQ page limit).totalProducts) ∧
    (listProducts store category inStockQ page limit).currentPage = page ∧
    (listProducts store category inStockQ page limit).limit = limit := by
  refine ⟨?_, ?_, rfl, ?_, rfl, ?_, fun _ _ => rfl, rfl, rfl⟩
  · exact List.length_take_le _ _
  · have hsorted : List.Sorted nameLe
        (findSortedByName store (buildFilter category inStockQ)) :=
      List.sorted_insertionSort nameLe _
    have hsub : List.Sublist
        (((findSortedByName store (buildFilter category inStockQ)).drop
          ((page - 1) * limit)).take limit)
        (findSortedByName store (buildFilter category inStockQ)) :=
      (List.take_sublist _ _).trans (List.drop_sublist _ _)
    exact hsorted.sublist hsub
  · exact List.perm_insertionSort nameLe _
  · exact natCeilDiv_eq _ limit hl

/-- C2, witness: the theorem applied to the fixture data with page 1 and
limit 2. -/
theorem c2_witness :
    (listProducts initialProducts none none 1 2).products.length ≤ 2 ∧
    (listProducts initialProducts none none 1 2).totalPages =
      ⌈(((listProducts initialProducts none none 1 2).totalProducts : ℚ) /
        (2 : ℚ))⌉₊ := by
  have h := c2_list_pagination initialProducts none none 1 2 (by decide) (by decide)
  exact ⟨h.1, h.2.2.2.2.2.1⟩

end ProductApi
